import Mathlib

/-!
Shallow embedding of the SparkGrid VPP simulator core (src/types.ts):
the asset data model, the periodic tick fluctuation, the named scenario
transformations, the derived grid statistics, and the bounded history
buffer, together with theorems settling the spec's claims about them.
Numeric values are modelled as rationals; the injected random draws are
explicit parameters.
-/

/-- Asset kinds, mirroring `enum AssetType`. -/
inductive AssetType where
  | SOLAR
  | WIND
  | BATTERY
  | BUILDING
  | FACTORY
  | EV_STATION
deriving DecidableEq, Repr

/-- Asset status values, mirroring `'active' | 'offline' | 'warning'`. -/
inductive AssetStatus where
  | active
  | offline
  | warning
deriving DecidableEq, Repr

/-- One managed grid entity, mirroring `interface GridAsset`. -/
structure GridAsset where
  id : String
  name : String
  type : AssetType
  capacity : ℚ
  currentOutput : ℚ
  status : AssetStatus
  x : ℚ
  y : ℚ
deriving DecidableEq, Repr

/-- Derived aggregate figures, mirroring `interface GridStats`. -/
structure GridStats where
  totalGeneration : ℚ
  totalConsumption : ℚ
  netLoad : ℚ
  storageLevel : ℚ
  gridFrequency : ℚ
deriving DecidableEq, Repr

/-- The fixed seed registry `INITIAL_ASSETS` from the source. -/
def INITIAL_ASSETS : List GridAsset :=
  [ { id := "1", name := "Sunny Meadows PV", type := .SOLAR, capacity := 50,
      currentOutput := 35, status := .active, x := 15, y := 20 },
    { id := "2", name := "West Ridge Wind", type := .WIND, capacity := 80,
      currentOutput := 42, status := .active, x := 80, y := 15 },
    { id := "3", name := "Central Battery B1", type := .BATTERY, capacity := 40,
      currentOutput := -10, status := .active, x := 50, y := 50 },
    { id := "4", name := "Downtown Hub", type := .BUILDING, capacity := 30,
      currentOutput := 25, status := .active, x := 45, y := 75 },
    { id := "5", name := "Tech Park A", type := .FACTORY, capacity := 100,
      currentOutput := 85, status := .active, x := 75, y := 80 },
    { id := "6", name := "Supercharger Lot", type := .EV_STATION, capacity := 20,
      currentOutput := 12, status := .active, x := 20, y := 85 } ]

/-- One asset's update on a tick: the random draw `r` (JS `Math.random()`,
in `[0,1)`) yields delta `(r - 0.5) * 2`, added to `currentOutput` and
clamped via `Math.max(0, Math.min(capacity, _))`. -/
def fluctuateAsset (r : ℚ) (a : GridAsset) : GridAsset :=
  { a with currentOutput := max 0 (min a.capacity (a.currentOutput + (r - 0.5) * 2)) }

/-- The tick's registry update `prev.map(a => ...)`, with an independent
random draw for each position: `r 0` is the draw consumed for the head,
the tail uses the subsequent draws. -/
def fluctuateAssets (r : ℕ → ℚ) : List GridAsset → List GridAsset
  | [] => []
  | a :: rest => fluctuateAsset (r 0) a :: fluctuateAssets (fun i => r (i + 1)) rest

/-- Scenario names accepted by `runSimulation`. -/
inductive Scenario where
  | heatwave
  | storm
  | blackout
  | peak
deriving DecidableEq, Repr

/-- The per-asset branch of `runSimulation`'s `prev.map(a => ...)` body:
sequential type tests keyed by the scenario name; unmatched assets are
returned unchanged. -/
def scenarioAsset (sc : Scenario) (a : GridAsset) : GridAsset :=
  match sc with
  | .heatwave =>
      if a.type = .SOLAR then { a with currentOutput := a.capacity * 0.95 }
      else if a.type = .BUILDING then { a with currentOutput := a.capacity * 0.9 }
      else a
  | .storm =>
      if a.type = .WIND then { a with currentOutput := a.capacity * 0.8, status := .warning }
      else if a.type = .SOLAR then { a with currentOutput := a.capacity * 0.1 }
      else a
  | .blackout =>
      if a.type ≠ .BATTERY then { a with currentOutput := 0, status := .offline }
      else { a with currentOutput := a.capacity * 0.5 }
  | .peak => a

/-- `runSimulation`'s state transition on the registry. -/
def runSimulation (sc : Scenario) (assets : List GridAsset) : List GridAsset :=
  assets.map (scenarioAsset sc)

/-- JS `Math.round`: round half up, i.e. floor of `x + 0.5`. -/
def jsRound (q : ℚ) : ℤ := ⌊q + 1 / 2⌋

/-- Round to one decimal place: `Math.round(x * 10) / 10`. -/
def round1 (q : ℚ) : ℚ := (jsRound (q * 10) : ℚ) / 10

/-- One step of the `assets.forEach` accumulation in the stats `useMemo`:
solar/wind add to generation, building/factory/ev-station add to
consumption, a battery adds to generation when discharging (positive
output) and its absolute value to consumption otherwise. -/
def statsStep (gc : ℚ × ℚ) (a : GridAsset) : ℚ × ℚ :=
  match a.type with
  | .SOLAR | .WIND => (gc.1 + a.currentOutput, gc.2)
  | .BUILDING | .FACTORY | .EV_STATION => (gc.1, gc.2 + a.currentOutput)
  | .BATTERY =>
      if a.currentOutput > 0 then (gc.1 + a.currentOutput, gc.2)
      else (gc.1, gc.2 + |a.currentOutput|)

/-- The raw (unrounded) generation/consumption pair accumulated over the
registry, as in the stats `useMemo`. -/
def statsRaw (assets : List GridAsset) : ℚ × ℚ :=
  assets.foldl statsStep (0, 0)

/-- The `GridStats` object returned by the stats `useMemo`; `rFreq` is the
`Math.random()` draw used for the synthetic grid frequency. -/
def computeStats (rFreq : ℚ) (assets : List GridAsset) : GridStats :=
  { totalGeneration := round1 (statsRaw assets).1
    totalConsumption := round1 (statsRaw assets).2
    netLoad := round1 ((statsRaw assets).2 - (statsRaw assets).1)
    storageLevel := 65
    gridFrequency := 50 + (rFreq - 0.5) * 0.1 }

/-- One entry of the chart history, mirroring the `newPoint` object. -/
structure HistoryPoint where
  time : String
  generation : ℚ
  consumption : ℚ
  net : ℚ
deriving DecidableEq, Repr

/-- The history update `[...prev, newPoint].slice(-20)`: append, then keep
the last 20 entries. -/
def histStep (prev : List HistoryPoint) (p : HistoryPoint) : List HistoryPoint :=
  (prev ++ [p]).drop ((prev ++ [p]).length - 20)

/-- The history point built from a stats snapshot. -/
def mkHistoryPoint (t : String) (st : GridStats) : HistoryPoint :=
  { time := t, generation := st.totalGeneration,
    consumption := st.totalConsumption, net := st.netLoad }

/-- The whole-app state touched by the interval callback. -/
structure SimState where
  assets : List GridAsset
  history : List HistoryPoint
deriving Repr

/-- One firing of the interval callback: first `setHistory` appends a point
built from the `stats` closure value, which was computed from the assets
as they stand at this moment (before this tick's mutation); then
`setAssets` applies the random fluctuation. `r i` is the random draw for
the `i`-th asset, `rFreq` the draw behind the captured frequency, `t` the
formatted wall-clock time string. -/
def tickStep (r : ℕ → ℚ) (rFreq : ℚ) (t : String) (s : SimState) : SimState :=
  { history := histStep s.history (mkHistoryPoint t (computeStats rFreq s.assets))
    assets := fluctuateAssets r s.assets }

/-- The user-triggerable operations that change the registry: a timer tick,
a scenario button, or the Reset Grid button (`setAssets(INITIAL_ASSETS)`). -/
inductive Op where
  | tick (r : ℕ → ℚ) (rFreq : ℚ) (t : String)
  | scenario (sc : Scenario)
  | reset

/-- Apply one operation to the app state. -/
def applyOp (s : SimState) : Op → SimState
  | .tick r rFreq t => tickStep r rFreq t s
  | .scenario sc => { s with assets := runSimulation sc s.assets }
  | .reset => { s with assets := INITIAL_ASSETS }

/-- Apply a finite sequence of operations in order. -/
def applyOps (s : SimState) (ops : List Op) : SimState :=
  ops.foldl applyOp s

/-- The response of the advisory collaborator call as the `try` block
observes it: a successful response carrying an optional `text` field, or a
thrown error. -/
inductive AiResponse where
  | success (text : Option String)
  | failure (err : String)

/-- The advice string stored by `getAiStrategy`: on success,
`response.text || "Optimize storage to balance peaks."` (JS `||` treats the
empty string as falsy); on any thrown error, the `catch` branch stores the
fixed fallback. The function is total: no error escapes. -/
def getAiStrategy (resp : AiResponse) : String :=
  match resp with
  | .success (some tx) =>
      if tx = "" then "Optimize storage to balance peaks." else tx
  | .success none => "Optimize storage to balance peaks."
  | .failure _ => "AI Advice unavailable. Manual override suggested."

/-! ## Helper lemmas -/

/-- The tick leaves an asset's capacity (and type, status, position)
unchanged; only `currentOutput` moves. -/
theorem fluctuateAsset_capacity (r : ℚ) (a : GridAsset) :
    (fluctuateAsset r a).capacity = a.capacity := rfl

/-- Pointwise idempotence of a scenario transformation. -/
theorem scenarioAsset_idem (sc : Scenario) (a : GridAsset) :
    scenarioAsset sc (scenarioAsset sc a) = scenarioAsset sc a := by
  rcases a with ⟨i, n, ty, cap, out, st, x, y⟩
  cases sc <;> cases ty <;> simp [scenarioAsset]

/-! ## Claim theorems -/

/-- Claim C1: after a tick, every asset with non-negative capacity has
`0 ≤ currentOutput ≤ capacity` — the random delta `(r - 0.5) * 2` is added
and the result clamped to `[0, capacity]`; in particular the first
conjunct shows a battery whose output was negative before the tick has
non-negative output afterwards. -/
theorem c1_tick_clamp (r : ℚ) (a : GridAsset) (hcap : 0 ≤ a.capacity) :
    0 ≤ (fluctuateAsset r a).currentOutput ∧
      (fluctuateAsset r a).currentOutput ≤ (fluctuateAsset r a).capacity := by
  refine ⟨le_max_left 0 _, ?_⟩
  rw [fluctuateAsset_capacity]
  exact max_le (by exact hcap) (min_le_left _ _)

/-- Witness for C1 at the seed battery (capacity 40, output −10) with a
concrete random draw. -/
theorem c1_tick_clamp_witness :
    (0 : ℚ) ≤ (GridAsset.mk "3" "Central Battery B1" .BATTERY 40 (-10) .active 50 50).capacity ∧
      (0 ≤ (fluctuateAsset 0.25
            (GridAsset.mk "3" "Central Battery B1" .BATTERY 40 (-10) .active 50 50)).currentOutput ∧
        (fluctuateAsset 0.25
            (GridAsset.mk "3" "Central Battery B1" .BATTERY 40 (-10) .active 50 50)).currentOutput ≤
          (fluctuateAsset 0.25
            (GridAsset.mk "3" "Central Battery B1" .BATTERY 40 (-10) .active 50 50)).capacity) :=
  ⟨by norm_num, c1_tick_clamp 0.25 _ (by norm_num)⟩

/-- Spec-side restatement of the heatwave row of the scenario table:
solar goes to `0.95 * capacity`, building to `0.90 * capacity`, everything
else passes through unchanged. -/
def heatwaveSpec (a : GridAsset) : GridAsset :=
  match a.type with
  | .SOLAR => { a with currentOutput := 0.95 * a.capacity }
  | .BUILDING => { a with currentOutput := 0.90 * a.capacity }
  | _ => a

/-- Spec-side restatement of the storm row: wind goes to `0.80 * capacity`
with status `warning`, solar to `0.10 * capacity`, everything else passes
through unchanged. -/
def stormSpec (a : GridAsset) : GridAsset :=
  match a.type with
  | .WIND => { a with currentOutput := 0.80 * a.capacity, status := .warning }
  | .SOLAR => { a with currentOutput := 0.10 * a.capacity }
  | _ => a

/-- Spec-side restatement of the blackout row: every non-battery asset goes
to output `0` with status `offline`; the battery goes to `0.50 * capacity`
with status unchanged. -/
def blackoutSpec (a : GridAsset) : GridAsset :=
  match a.type with
  | .BATTERY => { a with currentOutput := 0.50 * a.capacity }
  | _ => { a with currentOutput := 0, status := .offline }

/-- Claim C2: on every registry, each of the three named scenarios
transforms each asset exactly per the spec's table, and every asset not
matched by the scenario passes through completely unchanged (this is the
fall-through case of the three spec-side definitions). -/
theorem c2_scenario_table (assets : List GridAsset) :
    runSimulation .heatwave assets = assets.map heatwaveSpec ∧
      runSimulation .storm assets = assets.map stormSpec ∧
      runSimulation .blackout assets = assets.map blackoutSpec := by
  refine ⟨?_, ?_, ?_⟩ <;>
    · unfold runSimulation
      refine List.map_congr_left fun a _ => ?_
      rcases a with ⟨i, n, ty, cap, out, st, x, y⟩
      cases ty <;>
        simp [scenarioAsset, heatwaveSpec, stormSpec, blackoutSpec, mul_comm] <;>
        norm_num

/-- Claim C3: applying reset after any finite sequence of operations
(ticks, scenarios, even earlier resets) on the seed state yields a
registry equal, element for element and in order, to the six-asset seed
list. -/
theorem c3_reset_restores_seed (ops : List Op) :
    (applyOps ⟨INITIAL_ASSETS, []⟩ (ops ++ [Op.reset])).assets = INITIAL_ASSETS := by
  unfold applyOps
  rw [List.foldl_append]
  rfl

/-- Claim C4: applying the same scenario transformation twice in a row
produces the same registry as applying it once, for every registry state
and every scenario name. -/
theorem c4_scenario_idempotent (sc : Scenario) (assets : List GridAsset) :
    runSimulation sc (runSimulation sc assets) = runSimulation sc assets := by
  unfold runSimulation
  rw [List.map_map]
  exact List.map_congr_left fun a _ => scenarioAsset_idem sc a

/-- Folding the history update over a sequence of appended points, starting
from the empty history, keeps exactly the suffix of the most recent 20
points. -/
theorem foldl_histStep_eq (ps : List HistoryPoint) :
    ps.foldl histStep [] = ps.drop (ps.length - 20) := by
  induction ps using List.reverseRecOn with
  | nil => rfl
  | append_singleton ps p ih =>
      rw [List.foldl_append, List.foldl_cons, List.foldl_nil, ih]
      unfold histStep
      rw [← List.drop_append_of_le_length (Nat.sub_le _ _), List.drop_drop]
      congr 1
      simp only [List.length_append, List.length_drop, List.length_cons,
        List.length_nil]
      omega

/-- The chronological sequence of history points appended along an
operation run: each tick appends the point built from the stats it
captures; scenario and reset operations append nothing. -/
def tickTrace (s : SimState) : List Op → List HistoryPoint
  | [] => []
  | .tick r rFreq t :: ops =>
      mkHistoryPoint t (computeStats rFreq s.assets) ::
        tickTrace (applyOp s (.tick r rFreq t)) ops
  | op :: ops => tickTrace (applyOp s op) ops

/-- Running a sequence of operations updates the history by folding the
history step over the trace of appended points. -/
theorem applyOps_history (ops : List Op) :
    ∀ s : SimState, (applyOps s ops).history = (tickTrace s ops).foldl histStep s.history := by
  induction ops with
  | nil => intro s; rfl
  | cons op ops ih =>
      intro s
      cases op with
      | tick r rFreq t =>
          rw [applyOps, List.foldl_cons]
          exact ih (applyOp s (.tick r rFreq t))
      | scenario sc =>
          rw [applyOps, List.foldl_cons]
          exact ih (applyOp s (.scenario sc))
      | reset =>
          rw [applyOps, List.foldl_cons]
          exact ih (applyOp s .reset)

/-- Claim C5: for every finite run of operations from the seed state (in
particular for every number of ticks), the history never exceeds 20
points, and it equals exactly the suffix of the most recent (up to) 20
appended points in chronological order — after more than 20 ticks exactly
the last 20 remain, the oldest dropped from the front. -/
theorem c5_history_bound (ops : List Op) :
    (applyOps ⟨INITIAL_ASSETS, []⟩ ops).history.length ≤ 20 ∧
      (applyOps ⟨INITIAL_ASSETS, []⟩ ops).history =
        (tickTrace ⟨INITIAL_ASSETS, []⟩ ops).drop
          ((tickTrace ⟨INITIAL_ASSETS, []⟩ ops).length - 20) := by
  have h : (applyOps ⟨INITIAL_ASSETS, []⟩ ops).history =
      (tickTrace ⟨INITIAL_ASSETS, []⟩ ops).drop
        ((tickTrace ⟨INITIAL_ASSETS, []⟩ ops).length - 20) := by
    rw [applyOps_history ops ⟨INITIAL_ASSETS, []⟩, foldl_histStep_eq]
  refine ⟨?_, h⟩
  rw [h, List.length_drop]
  omega

/-- The history update always keeps the just-appended point as the last
entry (the drop removes at most the front, never the fresh point). -/
theorem histStep_getLast (h : List HistoryPoint) (p : HistoryPoint) :
    (histStep h p).getLast? = some p := by
  unfold histStep
  rw [List.drop_append_of_le_length (by simp)]
  exact List.getLast?_concat _

/-- Claim C6 (amended): on every tick the appended history point — the last
entry of the new history — is built from the `GridStats` computed from the
registry as it stood before that tick's mutation (the captured `stats`
value), and only afterwards are the assets fluctuated. -/
theorem c6_history_point_pre_tick (r : ℕ → ℚ) (rFreq : ℚ) (t : String) (s : SimState) :
    (tickStep r rFreq t s).history.getLast? =
        some (mkHistoryPoint t (computeStats rFreq s.assets)) ∧
      (tickStep r rFreq t s).assets = fluctuateAssets r s.assets :=
  ⟨histStep_getLast _ _, rfl⟩

/-- Counterexample to claim C6 as stated: with a single-solar registry and
the concrete random draw 0.9, the point appended by the tick carries
generation 35 (the pre-tick stats), while the stats computed from the
post-tick registry have generation 35.8. -/
theorem c6_counterexample :
    ¬ ((tickStep (fun _ => 0.9) 0 "12:00:00"
            ⟨[GridAsset.mk "1" "Sunny Meadows PV" .SOLAR 50 35 .active 15 20], []⟩).history.getLast? =
          some (mkHistoryPoint "12:00:00"
            (computeStats 0
              (tickStep (fun _ => 0.9) 0 "12:00:00"
                ⟨[GridAsset.mk "1" "Sunny Meadows PV" .SOLAR 50 35 .active 15 20],
                  []⟩).assets))) := by
  intro h
  simp only [tickStep, histStep_getLast, Option.some.injEq] at h
  have hg := congrArg HistoryPoint.generation h
  simp only [mkHistoryPoint, computeStats, statsRaw, statsStep, fluctuateAssets,
    fluctuateAsset, round1, jsRound, List.foldl_cons, List.foldl_nil] at hg
  norm_num at hg

/-- Spec-side per-asset generation contribution: solar/wind output, plus a
discharging battery's positive output. -/
def genContrib (a : GridAsset) : ℚ :=
  match a.type with
  | .SOLAR | .WIND => a.currentOutput
  | .BATTERY => if a.currentOutput > 0 then a.currentOutput else 0
  | _ => 0

/-- Spec-side per-asset consumption contribution: building/factory/ev
output, plus the absolute value of a charging battery's output. -/
def consContrib (a : GridAsset) : ℚ :=
  match a.type with
  | .BUILDING | .FACTORY | .EV_STATION => a.currentOutput
  | .BATTERY => if a.currentOutput > 0 then 0 else |a.currentOutput|
  | _ => 0

/-- Spec-side raw total generation: the sum of the per-asset contributions. -/
def rawGen (assets : List GridAsset) : ℚ :=
  (assets.map genContrib).sum

/-- Spec-side raw total consumption: the sum of the per-asset contributions. -/
def rawCons (assets : List GridAsset) : ℚ :=
  (assets.map consContrib).sum

/-- One accumulator step of the stats fold adds exactly the per-asset
contributions. -/
theorem statsStep_eq (gc : ℚ × ℚ) (a : GridAsset) :
    statsStep gc a = (gc.1 + genContrib a, gc.2 + consContrib a) := by
  rcases a with ⟨i, n, ty, cap, out, st, x, y⟩
  cases ty <;> simp [statsStep, genContrib, consContrib]
  split <;> simp

/-- The stats fold from an arbitrary accumulator adds the raw sums. -/
theorem foldl_statsStep (assets : List GridAsset) :
    ∀ gc : ℚ × ℚ, assets.foldl statsStep gc = (gc.1 + rawGen assets, gc.2 + rawCons assets) := by
  induction assets with
  | nil => intro gc; simp [rawGen, rawCons]
  | cons a rest ih =>
      intro gc
      rw [List.foldl_cons, ih, statsStep_eq]
      simp [rawGen, rawCons, add_assoc]

/-- The code's fold over the registry computes exactly the spec-side raw
generation/consumption sums. -/
theorem statsRaw_eq (assets : List GridAsset) :
    statsRaw assets = (rawGen assets, rawCons assets) := by
  rw [statsRaw, foldl_statsStep]
  simp

/-- Claim C7 (amended): the reported figures are each the round-half-up of
`value * 10` divided by 10 applied to the raw sums, and the reported
`netLoad` is that rounding of the raw difference `consumption − generation`
(rounded once, from the unrounded sums) — not the difference of the two
already-rounded reported figures. -/
theorem c7_rounding_netload (rFreq : ℚ) (assets : List GridAsset) :
    (computeStats rFreq assets).totalGeneration = round1 (rawGen assets) ∧
      (computeStats rFreq assets).totalConsumption = round1 (rawCons assets) ∧
      (computeStats rFreq assets).netLoad = round1 (rawCons assets - rawGen assets) ∧
      round1 (rawCons assets - rawGen assets) =
        ((⌊(rawCons assets - rawGen assets) * 10 + 1 / 2⌋ : ℤ) : ℚ) / 10 := by
  refine ⟨?_, ?_, ?_, rfl⟩ <;> simp [computeStats, statsRaw_eq]

/-- Counterexample to claim C7 as stated: with a solar asset producing
0.06 MW and a building consuming 0.12 MW, the reported figures are
generation 0.1, consumption 0.1 and netLoad 0.1, so the reported netLoad
(0.1) differs from reported consumption minus reported generation (0). -/
theorem c7_counterexample :
    ¬ ((computeStats 0 [GridAsset.mk "1" "Sunny Meadows PV" .SOLAR 50 0.06 .active 15 20,
            GridAsset.mk "4" "Downtown Hub" .BUILDING 30 0.12 .active 45 75]).netLoad =
          (computeStats 0 [GridAsset.mk "1" "Sunny Meadows PV" .SOLAR 50 0.06 .active 15 20,
            GridAsset.mk "4" "Downtown Hub" .BUILDING 30 0.12 .active 45 75]).totalConsumption -
            (computeStats 0 [GridAsset.mk "1" "Sunny Meadows PV" .SOLAR 50 0.06 .active 15 20,
              GridAsset.mk "4" "Downtown Hub" .BUILDING 30 0.12
                .active 45 75]).totalGeneration) := by
  simp only [computeStats, statsRaw, statsStep, round1, jsRound, List.foldl_cons,
    List.foldl_nil]
  norm_num

/-- A non-negative rational stays non-negative after rounding to one
decimal place. -/
theorem round1_nonneg {q : ℚ} (hq : 0 ≤ q) : 0 ≤ round1 q := by
  unfold round1 jsRound
  apply div_nonneg _ (by norm_num)
  have h : (0 : ℤ) ≤ ⌊q * 10 + 1 / 2⌋ := Int.floor_nonneg.mpr (by linarith)
  exact_mod_cast h

/-- The generation contribution of an asset is non-negative provided the
asset has non-negative output whenever it is not a battery (a battery only
contributes its output when that output is positive). -/
theorem genContrib_nonneg (a : GridAsset)
    (h : a.type ≠ .BATTERY → 0 ≤ a.currentOutput) : 0 ≤ genContrib a := by
  rcases a with ⟨i, n, ty, cap, out, st, x, y⟩
  cases ty <;> simp [genContrib] at h ⊢ <;> try exact h
  split
  · linarith
  · exact le_refl 0

/-- The consumption contribution of an asset is non-negative under the same
hypothesis (a charging battery contributes an absolute value). -/
theorem consContrib_nonneg (a : GridAsset)
    (h : a.type ≠ .BATTERY → 0 ≤ a.currentOutput) : 0 ≤ consContrib a := by
  rcases a with ⟨i, n, ty, cap, out, st, x, y⟩
  cases ty <;> simp [consContrib] at h ⊢ <;> try exact h
  split
  · exact le_refl 0
  · exact abs_nonneg out

/-- Claim C8 (amended): for any registry in which every non-battery asset
has non-negative `currentOutput` (battery outputs may be arbitrary), the
computed `totalGeneration` and `totalConsumption` are both non-negative. -/
theorem c8_totals_nonneg (rFreq : ℚ) (assets : List GridAsset)
    (h : ∀ a ∈ assets, a.type ≠ .BATTERY → 0 ≤ a.currentOutput) :
    0 ≤ (computeStats rFreq assets).totalGeneration ∧
      0 ≤ (computeStats rFreq assets).totalConsumption := by
  have hg : 0 ≤ rawGen assets := by
    apply List.sum_nonneg
    intro q hq
    rw [List.mem_map] at hq
    obtain ⟨a, ha, rfl⟩ := hq
    exact genContrib_nonneg a (h a ha)
  have hc : 0 ≤ rawCons assets := by
    apply List.sum_nonneg
    intro q hq
    rw [List.mem_map] at hq
    obtain ⟨a, ha, rfl⟩ := hq
    exact consContrib_nonneg a (h a ha)
  constructor
  · show 0 ≤ round1 (statsRaw assets).1
    rw [statsRaw_eq]
    exact round1_nonneg hg
  · show 0 ≤ round1 (statsRaw assets).2
    rw [statsRaw_eq]
    exact round1_nonneg hc

/-- Witness for the amended C8 at the seed registry, whose battery has
negative output −10. -/
theorem c8_totals_nonneg_witness :
    (∀ a ∈ INITIAL_ASSETS, a.type ≠ .BATTERY → 0 ≤ a.currentOutput) ∧
      (0 ≤ (computeStats 0 INITIAL_ASSETS).totalGeneration ∧
        0 ≤ (computeStats 0 INITIAL_ASSETS).totalConsumption) :=
  ⟨by decide, c8_totals_nonneg 0 INITIAL_ASSETS (by decide)⟩

/-- Counterexample to claim C8 as stated: a registry whose only asset is a
solar panel with `currentOutput = -5` (an arbitrary currentOutput value,
as the claim allows) yields `totalGeneration = -5 < 0`. -/
theorem c8_counterexample :
    ¬ (0 ≤ (computeStats 0
          [GridAsset.mk "1" "Sunny Meadows PV" .SOLAR 50 (-5) .active 15 20]).totalGeneration) := by
  simp only [computeStats, statsRaw, statsStep, round1, jsRound, List.foldl_cons,
    List.foldl_nil]
  norm_num

/-- Claim C9 (amended): whenever the advisory collaborator call throws, the
advice text is set to the fixed fallback string
"AI Advice unavailable. Manual override suggested." (which ends with the
phrase the claim quotes), and no error escapes: `getAiStrategy` is a total
function into advice strings. -/
theorem c9_advice_fallback (e : String) :
    getAiStrategy (.failure e) = "AI Advice unavailable. Manual override suggested." := rfl

/-- Counterexample to claim C9 as stated: on a failure the stored advice is
not the literal string "Manual override suggested." — the code prepends
"AI Advice unavailable. ". -/
theorem c9_counterexample :
    getAiStrategy (.failure "network error") ≠ "Manual override suggested." := by
  decide

/-- Claim C10: for every registry and every frequency draw `rFreq` in
`[0, 1)`, the computed `gridFrequency` equals `50 + (rFreq - 0.5) * 0.1`,
hence lies in `[49.95, 50.05)`, and the out-of-band indicator condition
`gridFrequency > 50.05 ∨ gridFrequency < 49.95` never holds. -/
theorem c10_frequency_band (rFreq : ℚ) (assets : List GridAsset)
    (h0 : 0 ≤ rFreq) (h1 : rFreq < 1) :
    (computeStats rFreq assets).gridFrequency = 50 + (rFreq - 0.5) * 0.1 ∧
      49.95 ≤ (computeStats rFreq assets).gridFrequency ∧
      (computeStats rFreq assets).gridFrequency < 50.05 ∧
      ¬((computeStats rFreq assets).gridFrequency > 50.05 ∨
        (computeStats rFreq assets).gridFrequency < 49.95) := by
  have hf : (computeStats rFreq assets).gridFrequency = 50 + (rFreq - 0.5) * 0.1 := rfl
  have hl : (49.95 : ℚ) ≤ 50 + (rFreq - 0.5) * 0.1 := by norm_num; linarith
  have hu : 50 + (rFreq - 0.5) * 0.1 < (50.05 : ℚ) := by norm_num; linarith
  refine ⟨hf, by rw [hf]; exact hl, by rw [hf]; exact hu, ?_⟩
  rw [hf]
  push_neg
  exact ⟨le_of_lt hu, hl⟩

/-- Witness for C10 at the frequency draw 0 on the empty registry. -/
theorem c10_frequency_band_witness :
    ((0 : ℚ) ≤ 0 ∧ (0 : ℚ) < 1) ∧
      ((computeStats 0 []).gridFrequency = 50 + ((0 : ℚ) - 0.5) * 0.1 ∧
        49.95 ≤ (computeStats 0 []).gridFrequency ∧
        (computeStats 0 []).gridFrequency < 50.05 ∧
        ¬((computeStats 0 []).gridFrequency > 50.05 ∨
          (computeStats 0 []).gridFrequency < 49.95)) :=
  ⟨⟨le_refl 0, by norm_num⟩, c10_frequency_band 0 [] (le_refl 0) (by norm_num)⟩
